import Mathlib

/-!
Verification of `Scripts/mcp_oauth_test_server.py`, a minimal HTTP server
that mimics the Todoist MCP OAuth challenge flow.

The embedding models each request handler as a pure function from the
bound port of the server and the incoming request to the response that the
handler writes (status line, the headers set explicitly by the handler
code, and the body bytes written to the socket, as a string).  Automatic
headers added by the Python standard library around every response
(`Server:`, `Date:`) depend on the wall clock, not on the request, and are
outside the model.
-/

/-- An incoming HTTP request as seen by the handler: the method
(`self.command`), the raw request target (`self.path`), plus the request
headers and body, which the handler never reads. -/
structure Request where
  method : String
  path : String
  reqHeaders : List (String × String)
  reqBody : String
deriving DecidableEq, Repr

/-- The response a handler produces: the status code passed to
`send_response`/`send_error`, the headers it sets with `send_header`, and
the bytes it writes to `self.wfile` (empty when it writes nothing). -/
structure Response where
  status : Nat
  headers : List (String × String)
  body : String
deriving DecidableEq, Repr

/-- `DEFAULT_PORT = 8765`. -/
def DEFAULT_PORT : Nat := 8765

/-- `resource_metadata(port)`: the f-string
`f"http://127.0.0.1:{port}/.well-known/oauth-protected-resource/mcp"`. -/
def resource_metadata (port : Nat) : String :=
  "http://127.0.0.1:" ++ toString port ++ "/.well-known/oauth-protected-resource/mcp"

/-- The fixed JSON-RPC error body written by `do_POST` on the 401 path
(the byte literal in the source, decoded as a string). -/
def mcp401Body : String :=
  "\x7b\"jsonrpc\":\"2.0\",\"id\":null,\"error\":\x7b\"code\":-32600,\"message\":\"Missing or invalid OAuth authorization\"\x7d\x7d"

/-- The Python string method `s.startswith(pre)`: a prefix test on the
character data. -/
def startswith (s pre : String) : Bool :=
  pre.data.isPrefixOf s.data

/-- `TodoistStyleHandler.do_POST`: if `self.path == "/mcp" or
self.path.startswith("/mcp/")`, send 401 with the Content-Type and
WWW-Authenticate headers and the fixed JSON-RPC error body; otherwise
send 404 with no headers set and no body written. -/
def do_POST (port : Nat) (path : String) : Response :=
  if path == "/mcp" || startswith path "/mcp/" then
    { status := 401
      headers :=
        [("Content-Type", "application/json; charset=utf-8"),
         ("WWW-Authenticate",
          "Bearer realm=\"mcp-server\", resource_metadata=\"" ++ resource_metadata port ++ "\"")]
      body := mcp401Body }
  else
    { status := 404, headers := [], body := "" }

/-- The metadata body written by `do_GET` on the 200 path: the
concatenation of byte literals around `str(port).encode()` in the source,
decoded as a string. -/
def protectedResourceBody (port : Nat) : String :=
  "\x7b\"resource\":\"http://127.0.0.1:" ++ toString port ++
    "/mcp\",\"authorization_servers\":[\x7b\"issuer\":\"https://auth.example.com\"\x7d]\x7d"

/-- `TodoistStyleHandler.do_GET`: if `self.path` is exactly
`"/.well-known/oauth-protected-resource/mcp"` or exactly
`"/.well-known/oauth-protected-resource"`, send 200 with Content-Type
`application/json` and the metadata body; otherwise send 404 with no
headers set and no body written. -/
def do_GET (port : Nat) (path : String) : Response :=
  if path == "/.well-known/oauth-protected-resource/mcp"
      || path == "/.well-known/oauth-protected-resource" then
    { status := 200
      headers := [("Content-Type", "application/json")]
      body := protectedResourceBody port }
  else
    { status := 404, headers := [], body := "" }

/-- `html.escape(s, quote=False)` as used by `send_error`: replaces `&`,
`<` and `>` by their HTML entities. -/
def html_escape (s : String) : String :=
  s.data.foldl
    (fun acc c =>
      if c == '&' then acc ++ "&amp;"
      else if c == '<' then acc ++ "&lt;"
      else if c == '>' then acc ++ "&gt;"
      else acc.push c)
    ""

/-- The `http.server` error page template (`ERROR_MESSAGE_FORMAT`) filled
in by `send_error`, from the Python standard library that dispatches to
the handler — the script itself defines only `do_GET` and `do_POST`. -/
def error_page (code : Nat) (message explain : String) : String :=
  "<!DOCTYPE HTML>\n<html lang=\"en\">\n    <head>\n        <meta charset=\"utf-8\">\n        <title>Error response</title>\n    </head>\n    <body>\n        <h1>Error response</h1>\n        <p>Error code: " ++ toString code ++ "</p>\n        <p>Message: " ++ html_escape message ++ ".</p>\n        <p>Error explanation: " ++ html_escape explain ++ ".</p>\n    </body>\n</html>\n"

/-- `BaseHTTPRequestHandler.handle_one_request` method dispatch, from the
Python standard library: the request method `M` is handled by `do_M` when
the handler defines it; otherwise the library answers with
`send_error(501, ...)` naming the unsupported method, whose page body is
omitted for HEAD requests.  `TodoistStyleHandler` defines exactly `do_POST` and
`do_GET`. -/
def handle (port : Nat) (req : Request) : Response :=
  if req.method == "POST" then do_POST port req.path
  else if req.method == "GET" then do_GET port req.path
  else
    { status := 501
      headers := [("Connection", "close"), ("Content-Type", "text/html;charset=utf-8")]
      body :=
        if req.method == "HEAD" then ""
        else error_page 501 ("Unsupported method (\x27" ++ req.method ++ "\x27)")
               "Server does not support this operation" }

/-- Whitespace stripped by the Python builtin `int(str)` before parsing (ASCII
whitespace; the handful of further Unicode space characters Python also
strips are immaterial to the claims). -/
def isPySpace (c : Char) : Bool :=
  c == ' ' || c == '\t' || c == '\n' || c == '\r' || c == '\x0b' || c == '\x0c'

/-- Digit groups accepted by the Python builtin `int(str)` after the optional sign:
a nonempty digit sequence in which single underscores may separate
digits. -/
def pyDigitGroups : List Char → Bool
  | [] => false
  | c :: rest => c.isDigit && pyDigitRest rest
where
  pyDigitRest : List Char → Bool
  | [] => true
  | '_' :: rest =>
      match rest with
      | [] => false
      | c :: rest' => c.isDigit && pyDigitRest rest'
  | c :: rest => c.isDigit && pyDigitRest rest

/-- Numeric value of a digit-group list, underscores skipped. -/
def digitGroupsVal (l : List Char) : Nat :=
  (l.filter (fun c => c != '_')).foldl (fun a c => a * 10 + (c.toNat - 48)) 0

/-- The Python builtin `int(str)` on a decimal string: strip surrounding
whitespace, allow one optional sign, then underscore-grouped digits;
any other input raises `ValueError`, modelled as `none`. -/
def pyInt (s : String) : Option Int :=
  let core := ((s.data.dropWhile isPySpace).reverse.dropWhile isPySpace).reverse
  match core with
  | '+' :: rest => if pyDigitGroups rest then some (digitGroupsVal rest) else none
  | '-' :: rest => if pyDigitGroups rest then some (-(digitGroupsVal rest : Int)) else none
  | rest => if pyDigitGroups rest then some (digitGroupsVal rest) else none

/-- The port computation in `main`:
`int(sys.argv[1]) if len(sys.argv) > 1 else DEFAULT_PORT`.
`none` means `int` raised `ValueError` and startup crashed before the
socket bind. -/
def portOf (argv : List String) : Option Int :=
  match argv with
  | _ :: arg :: _ => pyInt arg
  | _ => some (DEFAULT_PORT : Nat)

/-! ### Helper lemmas -/

/-- A string whose first part contains a question mark never equals a
string free of question marks, whatever is appended after it. -/
lemma append_ne_of_qmark (a b t : String) (ha : '?' ∈ a.data)
    (ht : '?' ∉ t.data) : a ++ b ≠ t := by
  intro h
  apply ht
  rw [← h, String.data_append]
  exact List.mem_append.mpr (Or.inl ha)

/-! ### Theorems for the claims -/

/-- C1: a POST whose target is exactly `/mcp` or begins with `/mcp/`
gets status 401, Content-Type `application/json; charset=utf-8`, a
WWW-Authenticate header carrying the resource-metadata URL
`http://127.0.0.1:<port>/.well-known/oauth-protected-resource/mcp` for
the bound port, and exactly the fixed JSON-RPC error body, whatever the
request headers and body were. -/
theorem post_mcp_unauthorized (port : Nat) (path : String)
    (h : path = "/mcp" ∨ startswith path "/mcp/" = true)
    (hs : List (String × String)) (b : String) :
    handle port ⟨"POST", path, hs, b⟩ =
      { status := 401
        headers :=
          [("Content-Type", "application/json; charset=utf-8"),
           ("WWW-Authenticate",
            "Bearer realm=\"mcp-server\", resource_metadata=\"" ++
              ("http://127.0.0.1:" ++ toString port ++
                "/.well-known/oauth-protected-resource/mcp") ++ "\"")]
        body := "\x7b\"jsonrpc\":\"2.0\",\"id\":null,\"error\":\x7b\"code\":-32600,\"message\":\"Missing or invalid OAuth authorization\"\x7d\x7d" } := by
  rcases h with h | h
  · subst h; rfl
  · simp [handle, do_POST, h, resource_metadata, mcp401Body]

/-- Witness for C1 at port 8765 and path `/mcp`. -/
theorem post_mcp_unauthorized_witness :
    handle 8765 ⟨"POST", "/mcp", [("Authorization", "Bearer tok")], "\x7b\x7d"⟩ =
      { status := 401
        headers :=
          [("Content-Type", "application/json; charset=utf-8"),
           ("WWW-Authenticate",
            "Bearer realm=\"mcp-server\", resource_metadata=\"" ++
              ("http://127.0.0.1:" ++ toString 8765 ++
                "/.well-known/oauth-protected-resource/mcp") ++ "\"")]
        body := "\x7b\"jsonrpc\":\"2.0\",\"id\":null,\"error\":\x7b\"code\":-32600,\"message\":\"Missing or invalid OAuth authorization\"\x7d\x7d" } :=
  post_mcp_unauthorized 8765 "/mcp" (Or.inl rfl) [("Authorization", "Bearer tok")] "\x7b\x7d"

/-- C2: a GET whose target is exactly the protected-resource well-known
path (with or without the trailing `/mcp` segment) gets status 200,
Content-Type `application/json`, and the metadata body naming
`http://127.0.0.1:<port>/mcp` as the resource for the bound port. -/
theorem get_wellknown_metadata (port : Nat) (path : String)
    (h : path = "/.well-known/oauth-protected-resource/mcp" ∨
         path = "/.well-known/oauth-protected-resource")
    (hs : List (String × String)) (b : String) :
    handle port ⟨"GET", path, hs, b⟩ =
      { status := 200
        headers := [("Content-Type", "application/json")]
        body := "\x7b\"resource\":\"http://127.0.0.1:" ++ toString port ++
          "/mcp\",\"authorization_servers\":[\x7b\"issuer\":\"https://auth.example.com\"\x7d]\x7d" } := by
  rcases h with h | h <;> subst h <;> rfl

/-- Witness for C2 at port 8765 and the full well-known path. -/
theorem get_wellknown_metadata_witness :
    handle 8765 ⟨"GET", "/.well-known/oauth-protected-resource/mcp", [], ""⟩ =
      { status := 200
        headers := [("Content-Type", "application/json")]
        body := "\x7b\"resource\":\"http://127.0.0.1:" ++ toString 8765 ++
          "/mcp\",\"authorization_servers\":[\x7b\"issuer\":\"https://auth.example.com\"\x7d]\x7d" } :=
  get_wellknown_metadata 8765 "/.well-known/oauth-protected-resource/mcp" (Or.inl rfl) [] ""

/-- C3, counterexample: the claim says every request outside the two
routes — including any other HTTP method, such as PUT — is answered 404
with an empty body; but a PUT to `/foo` is answered 501 (Unsupported
method) by the base handler dispatch, since the handler class defines
only `do_GET` and `do_POST`. -/
theorem put_method_gets_501_not_404 :
    (handle 8765 ⟨"PUT", "/foo", [], ""⟩).status = 501 ∧
    (handle 8765 ⟨"PUT", "/foo", [], ""⟩).status ≠ 404 ∧
    (handle 8765 ⟨"PUT", "/foo", [], ""⟩).body ≠ "" := by
  refine ⟨rfl, by decide, by decide⟩

/-- C3, amended: a POST outside `/mcp` and `/mcp/...`, and a GET outside
the two well-known paths, are answered 404 with no headers set and an
empty body; a request whose method is neither POST nor GET is answered
501 (Unsupported method) by the base handler, not 404. -/
theorem non_matching_requests (port : Nat) (p m : String)
    (hs : List (String × String)) (b : String) :
    (p ≠ "/mcp" → startswith p "/mcp/" = false →
      handle port ⟨"POST", p, hs, b⟩ = ⟨404, [], ""⟩) ∧
    (p ≠ "/.well-known/oauth-protected-resource/mcp" →
     p ≠ "/.well-known/oauth-protected-resource" →
      handle port ⟨"GET", p, hs, b⟩ = ⟨404, [], ""⟩) ∧
    (m ≠ "POST" → m ≠ "GET" → (handle port ⟨m, p, hs, b⟩).status = 501) := by
  refine ⟨fun h1 h2 => ?_, fun h1 h2 => ?_, fun h1 h2 => ?_⟩
  · simp [handle, do_POST, h1, h2]
  · simp [handle, do_GET, h1, h2]
  · simp [handle, h1, h2]

/-- Witness for C3 (amended) at port 8765, path `/foo`, method PUT. -/
theorem non_matching_requests_witness :
    handle 8765 ⟨"POST", "/foo", [], ""⟩ = ⟨404, [], ""⟩ ∧
    handle 8765 ⟨"GET", "/foo", [], ""⟩ = ⟨404, [], ""⟩ ∧
    (handle 8765 ⟨"PUT", "/foo", [], ""⟩).status = 501 :=
  ⟨(non_matching_requests 8765 "/foo" "PUT" [] "").1 (by decide) (by decide),
   (non_matching_requests 8765 "/foo" "PUT" [] "").2.1 (by decide) (by decide),
   (non_matching_requests 8765 "/foo" "PUT" [] "").2.2 (by decide) (by decide)⟩

/-- C4, counterexample: the claim says startup cannot fail for any
command-line argument vector (only the later socket bind can); but with
argument vector `["mcp_oauth_test_server.py", "foo"]` the expression
`int(sys.argv[1])` raises ValueError and startup crashes before any bind
is attempted. -/
theorem startup_fails_on_non_integer_port :
    portOf ["mcp_oauth_test_server.py", "foo"] = none := by decide

/-- C4, amended: startup has exactly one failure path besides the
bind-time socket error — a supplied port argument that is not a valid
integer literal; every argument vector either yields a port value
(after which only the bind can fail) or has a first argument that the
integer conversion rejects. -/
theorem startup_failure_dichotomy (argv : List String) :
    (∃ n, portOf argv = some n) ∨
    (∃ prog arg rest, argv = prog :: arg :: rest ∧ pyInt arg = none) := by
  match argv with
  | [] => exact Or.inl ⟨8765, rfl⟩
  | [prog] => exact Or.inl ⟨8765, rfl⟩
  | prog :: arg :: rest =>
    cases h : pyInt arg with
    | none => exact Or.inr ⟨prog, arg, rest, rfl, h⟩
    | some n => exact Or.inl ⟨n, h⟩

/-- C5: a GET to the well-known path without the trailing segment gets a
response identical — same status, same headers including Content-Type,
same body — to a GET to the well-known path ending in `/mcp`, on the
same server, whatever the request headers and bodies were. -/
theorem wellknown_paths_equivalent (port : Nat)
    (hs hs2 : List (String × String)) (b b2 : String) :
    handle port ⟨"GET", "/.well-known/oauth-protected-resource", hs, b⟩ =
    handle port ⟨"GET", "/.well-known/oauth-protected-resource/mcp", hs2, b2⟩ := by
  calc handle port ⟨"GET", "/.well-known/oauth-protected-resource", hs, b⟩
      = { status := 200, headers := [("Content-Type", "application/json")],
          body := protectedResourceBody port } := rfl
    _ = handle port ⟨"GET", "/.well-known/oauth-protected-resource/mcp", hs2, b2⟩ := rfl

/-- C6: the listening port is the first positional argument converted to
an integer when one is supplied, and 8765 when none is supplied. -/
theorem port_from_cli
    (prog arg : String) (rest : List String) (n : Int)
    (h : pyInt arg = some n) :
    portOf (prog :: arg :: rest) = some n ∧
    (∀ p : String, portOf [p] = some (DEFAULT_PORT : Nat)) := by
  exact ⟨h, fun p => rfl⟩

/-- Witness for C6 at argument vector `[prog, "9999"]`. -/
theorem port_from_cli_witness :
    portOf ["mcp_oauth_test_server.py", "9999"] = some 9999 ∧
    (∀ p : String, portOf [p] = some (DEFAULT_PORT : Nat)) :=
  port_from_cli "mcp_oauth_test_server.py" "9999" [] 9999 (by decide)

/-- C8: the response is a function of method, path and bound port only —
two requests with the same method and the same path to the same server
get identical responses, whatever their request headers and bodies. -/
theorem response_ignores_request_headers_and_body (port : Nat)
    (r1 r2 : Request) (hm : r1.method = r2.method) (hp : r1.path = r2.path) :
    handle port r1 = handle port r2 := by
  obtain ⟨m1, p1, a1, b1⟩ := r1
  obtain ⟨m2, p2, a2, b2⟩ := r2
  cases hm
  cases hp
  rfl

/-- Witness for C8: same method and path, different headers and bodies. -/
theorem response_ignores_request_headers_and_body_witness :
    handle 8765 ⟨"POST", "/mcp", [("Authorization", "Bearer good")], "x"⟩ =
    handle 8765 ⟨"POST", "/mcp", [], "yy"⟩ :=
  response_ignores_request_headers_and_body 8765
    ⟨"POST", "/mcp", [("Authorization", "Bearer good")], "x"⟩
    ⟨"POST", "/mcp", [], "yy"⟩ rfl rfl

/-- C9: the responses are mutually consistent on the bound port — the
WWW-Authenticate metadata URL names host 127.0.0.1, the own port and the
well-known path, that very path is answered 200 by the GET handler, the
200 body names `http://127.0.0.1:<port>/mcp` as the resource, and `/mcp`
is answered 401 by the POST handler. -/
theorem server_self_consistent (port : Nat) :
    resource_metadata port =
      "http://127.0.0.1:" ++ toString port ++
        "/.well-known/oauth-protected-resource/mcp" ∧
    (handle port ⟨"GET", "/.well-known/oauth-protected-resource/mcp", [], ""⟩).status
      = 200 ∧
    (handle port ⟨"GET", "/.well-known/oauth-protected-resource/mcp", [], ""⟩).body
      = "\x7b\"resource\":\"http://127.0.0.1:" ++ toString port ++
          "/mcp\",\"authorization_servers\":[\x7b\"issuer\":\"https://auth.example.com\"\x7d]\x7d" ∧
    (handle port ⟨"POST", "/mcp", [], ""⟩).status = 401 :=
  ⟨rfl, rfl, rfl, rfl⟩

/-- C10: path matching is exact string comparison on the raw target — a
POST to a target beginning with `/mcp` that is neither exactly `/mcp`
nor prefixed by `/mcp/` (such as `/mcpx` or `/mcp?x=1`) gets 404, and a
GET to a well-known path with a trailing slash or with any appended
query string gets 404. -/
theorem exact_path_matching (port : Nat) (p q : String) :
    (startswith p "/mcp" = true → p ≠ "/mcp" → startswith p "/mcp/" = false →
      (handle port ⟨"POST", p, [], ""⟩).status = 404) ∧
    (handle port ⟨"POST", "/mcpx", [], ""⟩).status = 404 ∧
    (handle port ⟨"POST", "/mcp?x=1", [], ""⟩).status = 404 ∧
    (handle port ⟨"GET", "/.well-known/oauth-protected-resource/", [], ""⟩).status = 404 ∧
    (handle port ⟨"GET", "/.well-known/oauth-protected-resource/mcp/", [], ""⟩).status = 404 ∧
    (handle port ⟨"GET", "/.well-known/oauth-protected-resource" ++ "?" ++ q, [], ""⟩).status = 404 ∧
    (handle port ⟨"GET", "/.well-known/oauth-protected-resource/mcp" ++ "?" ++ q, [], ""⟩).status = 404 := by
  have hq1 : "/.well-known/oauth-protected-resource?" ++ q ≠
      "/.well-known/oauth-protected-resource/mcp" :=
    append_ne_of_qmark _ _ _ (by decide) (by decide)
  have hq2 : "/.well-known/oauth-protected-resource?" ++ q ≠
      "/.well-known/oauth-protected-resource" :=
    append_ne_of_qmark _ _ _ (by decide) (by decide)
  have hq3 : "/.well-known/oauth-protected-resource/mcp?" ++ q ≠
      "/.well-known/oauth-protected-resource/mcp" :=
    append_ne_of_qmark _ _ _ (by decide) (by decide)
  have hq4 : "/.well-known/oauth-protected-resource/mcp?" ++ q ≠
      "/.well-known/oauth-protected-resource" :=
    append_ne_of_qmark _ _ _ (by decide) (by decide)
  refine ⟨fun _ h1 h2 => ?_, rfl, rfl, rfl, rfl, ?_, ?_⟩
  · simp [handle, do_POST, h1, h2]
  · simp [handle, do_GET, hq1, hq2]
  · simp [handle, do_GET, hq3, hq4]

/-- Witness for C10 at port 8765, path `/mcpx`, query `x=1`. -/
theorem exact_path_matching_witness :
    (handle 8765 ⟨"POST", "/mcpx", [], ""⟩).status = 404 ∧
    (handle 8765 ⟨"GET", "/.well-known/oauth-protected-resource" ++ "?" ++ "x=1", [], ""⟩).status
      = 404 :=
  ⟨(exact_path_matching 8765 "/mcpx" "x=1").1 (by decide) (by decide) (by decide),
   (exact_path_matching 8765 "/mcpx" "x=1").2.2.2.2.2.1⟩
